import Mathlib

/-!
Verification of the dual-media synchronized playback controller of
`gpu-ui` (src/src/app/page.tsx, component VideoMesh / VideoPlayer).

The state of the controller is embedded shallowly: each HTML video element
becomes a `MediaHandle`, the React component state (`bothVideosReady`,
`syncIntervalRef`) and the presentation-layer error surface become fields of
`SyncSystem`.  The callbacks `checkReady`, `syncVideos`,
`startSyncMonitoring`, `stopSyncMonitoring`, `playVideo`, `pauseVideo`,
`seekTo`, `handleVideoError` and `handleMaskError` are translated one by
one.  Each operation returns the next state together with the list of
externally visible commands it issued (seeks, play/pause calls, timer
creation/cancellation, surfaced error messages), so that ordering claims
("pause stops the corrector before pausing the handles") and
absence-of-effect claims ("no seek is issued that tick") are statable.

Timers: `setInterval` / `clearInterval` are modelled by a count
`tickSources` of live interval timers plus the boolean `syncActive`
mirroring whether `syncIntervalRef.current` is non-null.  A `tick` event
runs the interval callback `syncVideos` iff at least one timer is live;
clearing removes the referenced timer.  This captures exactly the
duplicate-timer hazard the idempotence claims are about while abstracting
the 500 ms phase.
-/

namespace GpuUi

/-- One HTML video element, as observed by the controller: positions and
durations are rationals standing for the element's seconds values. -/
structure MediaHandle where
  readyState : Nat
  position : ℚ
  duration : Option ℚ
  errorMsg : Option String
  paused : Bool
deriving DecidableEq, Repr

/-- Which of the two elements a command was issued on: `primary` is the
main video element, `follower` the mask element. -/
inductive Target where
  | primary
  | follower
deriving DecidableEq, Repr

/-- Externally visible commands issued by the controller. -/
inductive Effect where
  | setTime (tgt : Target) (t : ℚ)
  | playCmd (tgt : Target)
  | pauseCmd (tgt : Target)
  | clearTimer
  | setTimer
  | surfaceError (msg : String)
deriving DecidableEq, Repr

/-- The whole controller state: the two elements, the component state
`bothVideosReady`, the interval bookkeeping, and the error string surfaced
to the presentation layer (VideoPlayer's `error` state). -/
structure SyncSystem where
  video : MediaHandle
  mask : MediaHandle
  bothVideosReady : Bool
  syncActive : Bool
  tickSources : Nat
  surfacedError : Option String
deriving DecidableEq, Repr

/-- Modelled from the spec: the host media stack's `currentTime` setter is
not in this repository; per spec §4.1 a seek "clamps to [0, duration] if
duration known; otherwise passes through". -/
def clampTime (h : MediaHandle) (t : ℚ) : ℚ :=
  match h.duration with
  | some d => max 0 (min t d)
  | none => t

/-- Assignment `element.currentTime = t`. -/
def setCurrentTime (h : MediaHandle) (t : ℚ) : MediaHandle :=
  { h with position := clampTime h t }

/-- `checkReady` (page.tsx lines 138-146): sets `bothVideosReady` when both
elements report `readyState >= 3` (HAVE_FUTURE_DATA) and the flag is not
already set.  It never clears the flag and never looks at error state. -/
def checkReady (s : SyncSystem) : SyncSystem :=
  if 3 ≤ s.video.readyState ∧ 3 ≤ s.mask.readyState ∧ s.bothVideosReady = false then
    { s with bothVideosReady := true }
  else s

/-- The 100 ms sync threshold `SYNC_THRESHOLD = 0.1` (page.tsx line 170). -/
def SYNC_THRESHOLD : ℚ := 1 / 10

/-- `syncVideos` (page.tsx lines 162-178): compare the two current times
and, when they differ by more than the threshold, seek the mask element to
the main element's time.  Only the mask element is ever written. -/
def syncVideos (s : SyncSystem) : SyncSystem × List Effect :=
  let mainTime := s.video.position
  let maskTime := s.mask.position
  let timeDiff := |mainTime - maskTime|
  if SYNC_THRESHOLD < timeDiff then
    ({ s with mask := setCurrentTime s.mask mainTime },
     [Effect.setTime Target.follower mainTime])
  else (s, [])

/-- `startSyncMonitoring` (page.tsx lines 181-188): clear the referenced
interval if there is one, then create a fresh 500 ms interval. -/
def startSyncMonitoring (s : SyncSystem) : SyncSystem × List Effect :=
  if s.syncActive then
    ({ s with tickSources := s.tickSources - 1 + 1, syncActive := true },
     [Effect.clearTimer, Effect.setTimer])
  else
    ({ s with tickSources := s.tickSources + 1, syncActive := true },
     [Effect.setTimer])

/-- `stopSyncMonitoring` (page.tsx lines 191-196): clear the referenced
interval if there is one and null the ref; otherwise do nothing. -/
def stopSyncMonitoring (s : SyncSystem) : SyncSystem × List Effect :=
  if s.syncActive then
    ({ s with tickSources := s.tickSources - 1, syncActive := false },
     [Effect.clearTimer])
  else (s, [])

/-- `element.play()`: rejects when the source errored, otherwise starts
playback (clears `paused`).  The element is host-stack code; its contract
is spec §4.1 ("fails with MediaError if source errored"). -/
def handlePlayCall (h : MediaHandle) : Option MediaHandle :=
  if h.errorMsg.isSome then none else some { h with paused := false }

/-- `playVideo` (page.tsx lines 273-301): bail out unless both elements
exist and `bothVideosReady`; set `currentTime = 0` on both (`startTime` is
the literal 0), call `play()` on the main element then the mask element,
and on success of both start sync monitoring; a rejection lands in the
catch block which surfaces a playback error and starts no monitoring. -/
def playVideo (s : SyncSystem) : SyncSystem × List Effect :=
  if s.bothVideosReady = false then (s, [])
  else
    let v := setCurrentTime s.video 0
    let m := setCurrentTime s.mask 0
    let issued := [Effect.setTime Target.primary 0, Effect.setTime Target.follower 0,
      Effect.playCmd Target.primary, Effect.playCmd Target.follower]
    match handlePlayCall v, handlePlayCall m with
    | some v2, some m2 =>
        let started := startSyncMonitoring { s with video := v2, mask := m2 }
        (started.1, issued ++ started.2)
    | some v2, none =>
        ({ s with video := v2, mask := m, surfacedError := some "Playback error" },
         issued ++ [Effect.surfaceError "Playback error"])
    | none, some m2 =>
        ({ s with video := v, mask := m2, surfacedError := some "Playback error" },
         issued ++ [Effect.surfaceError "Playback error"])
    | none, none =>
        ({ s with video := v, mask := m, surfacedError := some "Playback error" },
         issued ++ [Effect.surfaceError "Playback error"])

/-- `pauseVideo` (page.tsx lines 303-314): stop sync monitoring first, then
pause both elements. -/
def pauseVideo (s : SyncSystem) : SyncSystem × List Effect :=
  let stopped := stopSyncMonitoring s
  ({ stopped.1 with
      video := { stopped.1.video with paused := true },
      mask := { stopped.1.mask with paused := true } },
   stopped.2 ++ [Effect.pauseCmd Target.primary, Effect.pauseCmd Target.follower])

/-- `seekTo` (page.tsx lines 316-322): assign the same time to both
elements' `currentTime`.  Nothing else is touched: in particular the sync
interval is left exactly as it was. -/
def seekTo (s : SyncSystem) (t : ℚ) : SyncSystem × List Effect :=
  ({ s with video := setCurrentTime s.video t, mask := setCurrentTime s.mask t },
   [Effect.setTime Target.primary t, Effect.setTime Target.follower t])

/-- `handleVideoError` (page.tsx lines 210-213): surface
`"Main video error: " ++ message` (or "Unknown error") via `onVideoError`,
which VideoPlayer stores as its `error` state.  No timer or transport
action is taken. -/
def handleVideoError (s : SyncSystem) : SyncSystem × List Effect :=
  let msg := "Main video error: " ++ (s.video.errorMsg.getD "Unknown error")
  ({ s with surfacedError := some msg }, [Effect.surfaceError msg])

/-- `handleMaskError` (page.tsx lines 215-218): surface
`"Mask video error: " ++ message` the same way. -/
def handleMaskError (s : SyncSystem) : SyncSystem × List Effect :=
  let msg := "Mask video error: " ++ (s.mask.errorMsg.getD "Unknown error")
  ({ s with surfacedError := some msg }, [Effect.surfaceError msg])

/-- Decoder-side playback progress: while an element is not paused its
position advances; the two elements advance independently (drift). -/
def advanceHandle (h : MediaHandle) (d : ℚ) : MediaHandle :=
  if h.paused then h else { h with position := h.position + d }

/-- Events delivered on the single event loop. -/
inductive Event where
  | canPlay (rv rm : Nat)
  | readyRegress (rv rm : Nat)
  | tick
  | play
  | pause
  | seek (t : ℚ)
  | videoErr (m : String)
  | maskErr (m : String)
  | advance (dv dm : ℚ)
deriving DecidableEq, Repr

/-- One event-loop step, returning the next state and the commands issued
while handling the event.  `canPlay` is the decoder raising the ready
states and firing the `canplay` handler `checkReady`; `readyRegress` is a
decoder-side readyState drop (no `canplay` fires); `tick` is the sync
interval firing (a cleared interval never fires); `videoErr`/`maskErr` set
the element's error and run the registered error handler. -/
def stepE (s : SyncSystem) (e : Event) : SyncSystem × List Effect :=
  match e with
  | Event.canPlay rv rm =>
      (checkReady { s with video := { s.video with readyState := rv },
                           mask := { s.mask with readyState := rm } }, [])
  | Event.readyRegress rv rm =>
      ({ s with video := { s.video with readyState := rv },
                mask := { s.mask with readyState := rm } }, [])
  | Event.tick => if 0 < s.tickSources then syncVideos s else (s, [])
  | Event.play => playVideo s
  | Event.pause => pauseVideo s
  | Event.seek t => seekTo s t
  | Event.videoErr m =>
      handleVideoError { s with video := { s.video with errorMsg := some m } }
  | Event.maskErr m =>
      handleMaskError { s with mask := { s.mask with errorMsg := some m } }
  | Event.advance dv dm =>
      ({ s with video := advanceHandle s.video dv, mask := advanceHandle s.mask dm }, [])

/-- The state part of a step. -/
def step (s : SyncSystem) (e : Event) : SyncSystem := (stepE s e).1

/-- Run a whole event sequence. -/
def run (s : SyncSystem) (es : List Event) : SyncSystem := es.foldl step s

/-- A healthy, fully buffered handle at position 0 of a 20 s video. -/
def okHandle : MediaHandle :=
  { readyState := 4, position := 0, duration := some 20, errorMsg := none, paused := true }

/-- Both elements paused at 5 s, pair ready: the state of the controller
after a pause mid-playback (a "resume" scenario). -/
def pausedMidway : SyncSystem :=
  { video := { okHandle with position := 5 },
    mask := { okHandle with position := 5 },
    bothVideosReady := true, syncActive := false, tickSources := 0,
    surfacedError := none }

/-- Both elements playing at 5 s with the sync interval live. -/
def playingState : SyncSystem :=
  { video := { okHandle with position := 5, paused := false },
    mask := { okHandle with position := 5, paused := false },
    bothVideosReady := true, syncActive := true, tickSources := 1,
    surfacedError := none }

/-- Both elements playing with the main video 300 ms ahead of the mask. -/
def driftState : SyncSystem :=
  { video := { okHandle with position := 2, paused := false },
    mask := { okHandle with position := 17 / 10, paused := false },
    bothVideosReady := true, syncActive := true, tickSources := 1,
    surfacedError := none }

/-- The interval bookkeeping of any reachable state: the ref holds a live
timer iff `syncActive`, and timers are never leaked. -/
def wfTimer (s : SyncSystem) : Prop :=
  s.tickSources = if s.syncActive then 1 else 0

/-- Boolean in-range check for a seek target against a handle's duration. -/
def inSeekRange (h : MediaHandle) (t : ℚ) : Bool :=
  decide (0 ≤ t) &&
    (match h.duration with
     | some d => decide (t ≤ d)
     | none => true)

/-! ### Helper lemmas -/

theorem clampTime_zero (h : MediaHandle) : clampTime h 0 = 0 := by
  unfold clampTime
  cases hd : h.duration with
  | none => rfl
  | some d => exact max_eq_left (min_le_left _ _)

theorem setCurrentTime_zero_position (h : MediaHandle) :
    (setCurrentTime h 0).position = 0 := by
  simp [setCurrentTime, clampTime_zero]

theorem checkReady_bothVideosReady (s : SyncSystem) :
    (checkReady s).bothVideosReady =
      (s.bothVideosReady ||
        (decide (3 ≤ s.video.readyState) && decide (3 ≤ s.mask.readyState))) := by
  unfold checkReady
  split
  · rename_i hcond
    simp [hcond.1, hcond.2.1]
  · rename_i hcond
    cases hb : s.bothVideosReady with
    | true => simp
    | false =>
        simp only [Bool.false_or]
        have hvm : ¬(3 ≤ s.video.readyState ∧ 3 ≤ s.mask.readyState) :=
          fun hp => hcond ⟨hp.1, hp.2, hb⟩
        by_cases h1 : 3 ≤ s.video.readyState
        · have h2 : ¬ 3 ≤ s.mask.readyState := fun h2 => hvm ⟨h1, h2⟩
          simp [h2]
        · simp [h1]

theorem syncVideos_bothVideosReady (s : SyncSystem) :
    (syncVideos s).1.bothVideosReady = s.bothVideosReady := by
  unfold syncVideos; dsimp only; split <;> rfl

theorem syncVideos_video (s : SyncSystem) : (syncVideos s).1.video = s.video := by
  unfold syncVideos; dsimp only; split <;> rfl

theorem syncVideos_tickSources (s : SyncSystem) :
    (syncVideos s).1.tickSources = s.tickSources := by
  unfold syncVideos; dsimp only; split <;> rfl

theorem syncVideos_syncActive (s : SyncSystem) :
    (syncVideos s).1.syncActive = s.syncActive := by
  unfold syncVideos; dsimp only; split <;> rfl

theorem startSyncMonitoring_bothVideosReady (s : SyncSystem) :
    (startSyncMonitoring s).1.bothVideosReady = s.bothVideosReady := by
  unfold startSyncMonitoring; split <;> rfl

theorem stopSyncMonitoring_bothVideosReady (s : SyncSystem) :
    (stopSyncMonitoring s).1.bothVideosReady = s.bothVideosReady := by
  unfold stopSyncMonitoring; split <;> rfl

theorem stopSyncMonitoring_tickSources_zero (s : SyncSystem)
    (h : s.tickSources = 0) : (stopSyncMonitoring s).1.tickSources = 0 := by
  unfold stopSyncMonitoring; split <;> simp [h]

theorem playVideo_bothVideosReady (s : SyncSystem) :
    (playVideo s).1.bothVideosReady = s.bothVideosReady := by
  unfold playVideo
  dsimp only
  split
  · rfl
  · split <;> simp [startSyncMonitoring_bothVideosReady]

theorem pauseVideo_bothVideosReady (s : SyncSystem) :
    (pauseVideo s).1.bothVideosReady = s.bothVideosReady := by
  unfold pauseVideo
  simp [stopSyncMonitoring_bothVideosReady]

theorem pauseVideo_tickSources_zero (s : SyncSystem) (h : s.tickSources = 0) :
    (pauseVideo s).1.tickSources = 0 := by
  unfold pauseVideo
  simp [stopSyncMonitoring_tickSources_zero s h]

theorem stepE_tick (s : SyncSystem) :
    stepE s Event.tick = if 0 < s.tickSources then syncVideos s else (s, []) := rfl

theorem step_bothVideosReady (s : SyncSystem) (e : Event)
    (h : s.bothVideosReady = true) : (step s e).bothVideosReady = true := by
  cases e with
  | canPlay rv rm => simp [step, stepE, checkReady_bothVideosReady, h]
  | readyRegress rv rm => simpa [step, stepE] using h
  | tick =>
      show (stepE s Event.tick).1.bothVideosReady = true
      rw [stepE_tick]
      split
      · rw [syncVideos_bothVideosReady]; exact h
      · exact h
  | play => simpa [step, stepE, playVideo_bothVideosReady] using h
  | pause => simpa [step, stepE, pauseVideo_bothVideosReady] using h
  | seek t => simpa [step, stepE, seekTo] using h
  | videoErr m => simpa [step, stepE, handleVideoError] using h
  | maskErr m => simpa [step, stepE, handleMaskError] using h
  | advance dv dm => simpa [step, stepE] using h

theorem run_cons (s : SyncSystem) (e : Event) (es : List Event) :
    run s (e :: es) = run (step s e) es := rfl

theorem step_tickSources_zero (s : SyncSystem) (e : Event)
    (he : e ≠ Event.play) (h : s.tickSources = 0) :
    (step s e).tickSources = 0 := by
  cases e with
  | canPlay rv rm =>
      show (checkReady _).tickSources = 0
      unfold checkReady
      split <;> simpa using h
  | readyRegress rv rm => simpa [step, stepE] using h
  | tick =>
      show (stepE s Event.tick).1.tickSources = 0
      rw [stepE_tick]
      split
      · rw [syncVideos_tickSources]; exact h
      · exact h
  | play => exact absurd rfl he
  | pause => exact pauseVideo_tickSources_zero s h
  | seek t => simpa [step, stepE, seekTo] using h
  | videoErr m => simpa [step, stepE, handleVideoError] using h
  | maskErr m => simpa [step, stepE, handleMaskError] using h
  | advance dv dm => simpa [step, stepE] using h

theorem run_tickSources_zero (s : SyncSystem) (es : List Event)
    (he : Event.play ∉ es) (h : s.tickSources = 0) :
    (run s es).tickSources = 0 := by
  induction es generalizing s with
  | nil => exact h
  | cons e es ih =>
      rw [run_cons]
      exact ih _ (fun hm => he (List.mem_cons_of_mem _ hm))
        (step_tickSources_zero s e (fun hp => he (hp ▸ List.mem_cons_self _ _)) h)

theorem tick_noop_of_tickSources_zero (s : SyncSystem) (h : s.tickSources = 0) :
    stepE s Event.tick = (s, []) := by
  simp [stepE, h]

theorem startSyncMonitoring_wfTimer (s : SyncSystem) (h : wfTimer s) :
    wfTimer (startSyncMonitoring s).1 := by
  unfold wfTimer at h ⊢
  unfold startSyncMonitoring
  by_cases ha : s.syncActive <;> simp [ha] at h ⊢ <;> omega

theorem stopSyncMonitoring_wfTimer (s : SyncSystem) (h : wfTimer s) :
    wfTimer (stopSyncMonitoring s).1 := by
  unfold wfTimer at h ⊢
  unfold stopSyncMonitoring
  by_cases ha : s.syncActive <;> simp [ha] at h ⊢ <;> omega

/-- `wfTimer` is an invariant of the event loop: the hypothesis used by the
pause/idempotence claims holds in every reachable state. -/
theorem wfTimer_step (s : SyncSystem) (e : Event) (h : wfTimer s) :
    wfTimer (step s e) := by
  cases e with
  | canPlay rv rm =>
      show wfTimer (checkReady _)
      unfold wfTimer at h ⊢
      unfold checkReady
      split <;> simpa using h
  | readyRegress rv rm => exact h
  | tick =>
      show wfTimer (stepE s Event.tick).1
      rw [stepE_tick]
      split
      · unfold wfTimer at h ⊢
        rw [syncVideos_tickSources, syncVideos_syncActive]
        exact h
      · exact h
  | play =>
      show wfTimer (playVideo s).1
      unfold playVideo
      dsimp only
      split
      · exact h
      · split
        · exact startSyncMonitoring_wfTimer _ h
        · exact h
        · exact h
        · exact h
  | pause =>
      show wfTimer (pauseVideo s).1
      unfold pauseVideo
      have h1 := stopSyncMonitoring_wfTimer s h
      unfold wfTimer at h1 ⊢
      simpa using h1
  | seek t => exact h
  | videoErr m => exact h
  | maskErr m => exact h
  | advance dv dm => exact h

/-! ### Claims -/

/-- Claim C10: the pair-ready flag `bothVideosReady` is latching: once it is
true, no later event (readyState regression, error, transport call, tick)
ever resets it to false. -/
theorem c10_ready_flag_latching (s : SyncSystem) (es : List Event)
    (h : s.bothVideosReady = true) : (run s es).bothVideosReady = true := by
  induction es generalizing s with
  | nil => exact h
  | cons e es ih => rw [run_cons]; exact ih _ (step_bothVideosReady s e h)

/-- Witness for C10: from a ready Playing state, a readyState regression to
0 followed by a handle error leaves the ready flag set. -/
theorem c10_ready_flag_latching_witness :
    (run playingState
        [Event.readyRegress 0 0, Event.maskErr "boom"]).bothVideosReady = true :=
  c10_ready_flag_latching playingState
    [Event.readyRegress 0 0, Event.maskErr "boom"] rfl

/-- Claim C7: a Drift Corrector tick never writes the primary handle: its
state is untouched and no seek command targeting the primary is issued. -/
theorem c7_tick_never_writes_primary (s : SyncSystem) :
    (stepE s Event.tick).1.video = s.video ∧
      ∀ t : ℚ, Effect.setTime Target.primary t ∉ (stepE s Event.tick).2 := by
  rw [stepE_tick]
  split
  · unfold syncVideos
    dsimp only
    split <;> simp
  · simp

/-- Claim C2 counterexample: the readiness check ignores error state and is
latching.  First, a state whose primary handle carries an error while both
readyStates are 4 is still reported ready by `checkReady`, though the claim
demands "neither handle in an error state".  Second, from a ready state a
mask error leaves the pair reported ready, though the claim demands any
error force the gate out of Ready. -/
theorem c2_counterexample :
    (checkReady
        { video := { okHandle with errorMsg := some "decode failure" },
          mask := okHandle, bothVideosReady := false, syncActive := false,
          tickSources := 0, surfacedError := none }).bothVideosReady = true
    ∧ ({ okHandle with errorMsg := some "decode failure" } : MediaHandle).errorMsg ≠ none
    ∧ (step playingState (Event.maskErr "boom")).bothVideosReady = true := by
  refine ⟨rfl, by simp [okHandle], rfl⟩

/-- Claim C2 (amended): the gate reports the pair ready iff the flag was
already set or both handles report readyState ≥ FutureData at this
evaluation; handle error state is ignored entirely (the evaluation reads
only the readyStates), and readiness is never cleared. -/
theorem c2_gate_ignores_errors (s : SyncSystem) :
    ((checkReady s).bothVideosReady = true ↔
      s.bothVideosReady = true ∨ (3 ≤ s.video.readyState ∧ 3 ≤ s.mask.readyState))
    ∧ (checkReady s).video.errorMsg = s.video.errorMsg
    ∧ (checkReady s).mask.errorMsg = s.mask.errorMsg := by
  refine ⟨?_, ?_, ?_⟩
  · rw [checkReady_bothVideosReady]
    cases hb : s.bothVideosReady <;> simp
  · unfold checkReady; split <;> rfl
  · unfold checkReady; split <;> rfl

/-- Claim C9: starting the sync monitor twice equals starting it once,
stopping twice equals stopping once, and on a well-formed state a start
leaves exactly one live interval timer (no duplicates) and a stop leaves
none. -/
theorem c9_start_stop_idempotent (s : SyncSystem) (h : wfTimer s) :
    (startSyncMonitoring (startSyncMonitoring s).1).1 = (startSyncMonitoring s).1
    ∧ (stopSyncMonitoring (stopSyncMonitoring s).1).1 = (stopSyncMonitoring s).1
    ∧ (startSyncMonitoring s).1.tickSources = 1
    ∧ (stopSyncMonitoring s).1.tickSources = 0 := by
  unfold wfTimer at h
  cases s with
  | mk v m r a k e =>
      by_cases ha : a <;>
        simp_all [startSyncMonitoring, stopSyncMonitoring]

/-! ### More helper lemmas -/

theorem startSyncMonitoring_video (s : SyncSystem) :
    (startSyncMonitoring s).1.video = s.video := by
  unfold startSyncMonitoring; split <;> rfl

theorem startSyncMonitoring_mask (s : SyncSystem) :
    (startSyncMonitoring s).1.mask = s.mask := by
  unfold startSyncMonitoring; split <;> rfl

theorem startSyncMonitoring_syncActive (s : SyncSystem) :
    (startSyncMonitoring s).1.syncActive = true := by
  unfold startSyncMonitoring; split <;> rfl

theorem startSyncMonitoring_effects (s : SyncSystem) :
    (startSyncMonitoring s).2 =
      if s.syncActive then [Effect.clearTimer, Effect.setTimer]
      else [Effect.setTimer] := by
  unfold startSyncMonitoring; split <;> simp_all

/-- A successful `playVideo` (pair ready, neither element errored) resets
both elements to 0, issues play on the main element then the mask element,
and starts sync monitoring. -/
theorem playVideo_success (s : SyncSystem) (hr : s.bothVideosReady = true)
    (hv : s.video.errorMsg = none) (hm : s.mask.errorMsg = none) :
    playVideo s =
      ((startSyncMonitoring
          { s with video := { setCurrentTime s.video 0 with paused := false },
                   mask := { setCurrentTime s.mask 0 with paused := false } }).1,
       [Effect.setTime Target.primary 0, Effect.setTime Target.follower 0,
        Effect.playCmd Target.primary, Effect.playCmd Target.follower]
         ++ (startSyncMonitoring
              { s with video := { setCurrentTime s.video 0 with paused := false },
                       mask := { setCurrentTime s.mask 0 with paused := false } }).2) := by
  have hcond : ¬ (s.bothVideosReady = false) := by simp [hr]
  have hv' : (setCurrentTime s.video 0).errorMsg = none := hv
  have hm' : (setCurrentTime s.mask 0).errorMsg = none := hm
  unfold playVideo
  rw [if_neg hcond]
  dsimp only
  simp only [handlePlayCall, hv', hm', Option.isSome_none, Bool.false_eq_true, if_false]

/-- `pauseVideo` on a state with no live monitor only pauses the elements. -/
theorem pauseVideo_inactive (x : SyncSystem) (ha : x.syncActive = false) :
    pauseVideo x =
      ({ x with video := { x.video with paused := true },
                mask := { x.mask with paused := true } },
       [Effect.pauseCmd Target.primary, Effect.pauseCmd Target.follower]) := by
  unfold pauseVideo stopSyncMonitoring
  simp [ha]

theorem pauseVideo_syncActive (x : SyncSystem) :
    (pauseVideo x).1.syncActive = false := by
  unfold pauseVideo stopSyncMonitoring
  by_cases ha : x.syncActive <;> simp [ha]

theorem pauseVideo_video_paused (x : SyncSystem) :
    (pauseVideo x).1.video.paused = true := by
  unfold pauseVideo; rfl

theorem pauseVideo_mask_paused (x : SyncSystem) :
    (pauseVideo x).1.mask.paused = true := by
  unfold pauseVideo; rfl

/-- Re-pausing an already fully paused state is the identity on states. -/
theorem SyncSystem_set_paused_self (x : SyncSystem) (hv : x.video.paused = true)
    (hm : x.mask.paused = true) :
    ({ x with video := { x.video with paused := true },
              mask := { x.mask with paused := true } } : SyncSystem) = x := by
  cases x with
  | mk v m r a k e => cases v; cases m; simp_all

theorem clampTime_of_inSeekRange (h : MediaHandle) (t : ℚ)
    (hr : inSeekRange h t = true) : clampTime h t = t := by
  unfold inSeekRange at hr
  unfold clampTime
  cases hd : h.duration with
  | none => rfl
  | some d =>
      rw [hd] at hr
      simp only [Bool.and_eq_true, decide_eq_true_eq] at hr
      show max 0 (min t d) = t
      rw [min_eq_left hr.2]
      exact max_eq_right hr.1

/-- Witness for C9 at the live Playing state. -/
theorem c9_start_stop_idempotent_witness :
    (startSyncMonitoring (startSyncMonitoring playingState).1).1
        = (startSyncMonitoring playingState).1
    ∧ (stopSyncMonitoring (stopSyncMonitoring playingState).1).1
        = (stopSyncMonitoring playingState).1
    ∧ (startSyncMonitoring playingState).1.tickSources = 1
    ∧ (stopSyncMonitoring playingState).1.tickSources = 0 :=
  c9_start_stop_idempotent playingState (by unfold wfTimer playingState; rfl)

/-- Claim C1 counterexample: resuming from Paused with both elements at 5 s,
a successful `playVideo` resets both elements to 0, not to the current
primary position as the claim requires for a resume. -/
theorem c1_counterexample :
    pausedMidway.bothVideosReady = true
    ∧ pausedMidway.video.paused = true
    ∧ pausedMidway.video.position = 5
    ∧ (playVideo pausedMidway).1.video.position = 0
    ∧ (playVideo pausedMidway).1.mask.position = 0
    ∧ (playVideo pausedMidway).1.video.position ≠ pausedMidway.video.position := by
  decide

/-- Claim C1 (amended): every successful `playVideo` resets both elements to
position 0 — on first play and on resume alike — then issues play on the
primary first and the follower second, and starts the sync monitor. -/
theorem c1_play_resets_both_to_zero (s : SyncSystem)
    (hr : s.bothVideosReady = true) (hv : s.video.errorMsg = none)
    (hm : s.mask.errorMsg = none) :
    (playVideo s).1.video.position = 0
    ∧ (playVideo s).1.mask.position = 0
    ∧ (playVideo s).1.video.paused = false
    ∧ (playVideo s).1.mask.paused = false
    ∧ (playVideo s).1.syncActive = true
    ∧ (playVideo s).2 =
        [Effect.setTime Target.primary 0, Effect.setTime Target.follower 0,
         Effect.playCmd Target.primary, Effect.playCmd Target.follower]
          ++ (if s.syncActive then [Effect.clearTimer, Effect.setTimer]
              else [Effect.setTimer]) := by
  rw [playVideo_success s hr hv hm]
  refine ⟨?_, ?_, ?_, ?_, ?_, ?_⟩ <;>
    simp [startSyncMonitoring_video, startSyncMonitoring_mask,
      startSyncMonitoring_syncActive, startSyncMonitoring_effects,
      setCurrentTime, clampTime_zero]

/-- Witness for C1 (amended) at the paused-at-5 s state. -/
theorem c1_play_resets_both_to_zero_witness :
    (playVideo pausedMidway).1.video.position = 0
    ∧ (playVideo pausedMidway).1.mask.position = 0
    ∧ (playVideo pausedMidway).1.video.paused = false
    ∧ (playVideo pausedMidway).1.mask.paused = false
    ∧ (playVideo pausedMidway).1.syncActive = true
    ∧ (playVideo pausedMidway).2 =
        [Effect.setTime Target.primary 0, Effect.setTime Target.follower 0,
         Effect.playCmd Target.primary, Effect.playCmd Target.follower]
          ++ (if pausedMidway.syncActive then [Effect.clearTimer, Effect.setTimer]
              else [Effect.setTimer]) :=
  c1_play_resets_both_to_zero pausedMidway rfl rfl rfl

/-- Claim C3: at a tick with a live interval, a correction is issued iff the
absolute primary/follower gap exceeds the 0.1 s threshold; the correction
sets the follower to the primary's current position (which is within the
follower's seekable range) and issues exactly that one seek; at or below
the threshold the tick changes nothing and issues nothing. -/
theorem c3_correction_iff_over_threshold (s : SyncSystem)
    (ht : 0 < s.tickSources)
    (hrange : inSeekRange s.mask s.video.position = true) :
    (SYNC_THRESHOLD < |s.video.position - s.mask.position| →
        (stepE s Event.tick).1 =
            { s with mask := { s.mask with position := s.video.position } }
          ∧ (stepE s Event.tick).2 =
              [Effect.setTime Target.follower s.video.position])
    ∧ (|s.video.position - s.mask.position| ≤ SYNC_THRESHOLD →
        stepE s Event.tick = (s, [])) := by
  rw [stepE_tick, if_pos ht]
  unfold syncVideos
  dsimp only
  constructor
  · intro hgt
    rw [if_pos hgt]
    refine ⟨?_, rfl⟩
    simp [setCurrentTime, clampTime_of_inSeekRange s.mask _ hrange]
  · intro hle
    rw [if_neg (not_lt.mpr hle)]

/-- Witness for C3: primary at 2 s, follower at 1.7 s, gap 0.3 s > 0.1 s:
the tick corrects the follower to 2 s with a single seek. -/
theorem c3_correction_iff_over_threshold_witness :
    (stepE driftState Event.tick).1 =
        { driftState with
            mask := { driftState.mask with position := driftState.video.position } }
      ∧ (stepE driftState Event.tick).2 =
          [Effect.setTime Target.follower driftState.video.position] :=
  (c3_correction_iff_over_threshold driftState (by decide) (by decide)).1
    (by
      have hd : driftState.video.position - driftState.mask.position = 3 / 10 := by
        norm_num [driftState, okHandle]
      rw [hd, abs_of_nonneg (by norm_num)]
      norm_num [SYNC_THRESHOLD])

/-- Claim C4 counterexample: with the pair Playing (live interval, both
elements unpaused), a mask error event leaves the interval live, leaves the
primary playing, and surfaces "Mask video error: boom" instead of the
verbatim "boom" — the corrector is not halted and the primary not paused. -/
theorem c4_counterexample :
    playingState.syncActive = true
    ∧ playingState.video.paused = false
    ∧ (stepE playingState (Event.maskErr "boom")).1.syncActive = true
    ∧ (stepE playingState (Event.maskErr "boom")).1.tickSources = 1
    ∧ (stepE playingState (Event.maskErr "boom")).1.video.paused = false
    ∧ (stepE playingState (Event.maskErr "boom")).1.surfacedError
        = some "Mask video error: boom"
    ∧ (stepE playingState (Event.maskErr "boom")).1.surfacedError
        ≠ some "boom" := by
  decide

/-- Claim C4 (amended): a handle error only surfaces the message to the
presentation layer, prefixed with which video failed ("Main video error: "
or "Mask video error: "); the sync interval, its timer count, and both
elements' play/pause state are untouched by the error handler. -/
theorem c4_error_only_surfaces_message (s : SyncSystem) (m : String) :
    (stepE s (Event.maskErr m)).1.surfacedError = some ("Mask video error: " ++ m)
    ∧ (stepE s (Event.maskErr m)).1.syncActive = s.syncActive
    ∧ (stepE s (Event.maskErr m)).1.tickSources = s.tickSources
    ∧ (stepE s (Event.maskErr m)).1.video.paused = s.video.paused
    ∧ (stepE s (Event.videoErr m)).1.surfacedError = some ("Main video error: " ++ m)
    ∧ (stepE s (Event.videoErr m)).1.syncActive = s.syncActive
    ∧ (stepE s (Event.videoErr m)).1.mask.paused = s.mask.paused := by
  refine ⟨?_, ?_, ?_, ?_, ?_, ?_, ?_⟩ <;>
    simp [stepE, handleMaskError, handleVideoError]

/-- Claim C5 counterexample: from the Playing state, `seekTo 5` leaves the
sync interval exactly as it was (nothing is suspended), and the very next
tick — after the main decoder has advanced 1 s and the mask decoder stalled
— issues a follower correction, contradicting "drift correction is
suspended for one tick". -/
theorem c5_counterexample :
    playingState.syncActive = true
    ∧ (stepE playingState (Event.seek 5)).1.syncActive = true
    ∧ (stepE playingState (Event.seek 5)).1.tickSources = playingState.tickSources
    ∧ (stepE (run playingState [Event.seek 5, Event.advance 1 0])
          Event.tick).2 = [Effect.setTime Target.follower 6]
    ∧ (stepE (run playingState [Event.seek 5, Event.advance 1 0])
          Event.tick).1.mask.position = 6 := by
  have hph : ({ okHandle with position := 5, paused := false } : MediaHandle).position = 5 := rfl
  have h5 : clampTime { okHandle with position := 5, paused := false } 5 = 5 :=
    clampTime_of_inSeekRange _ _ (by decide)
  have hrun : run playingState [Event.seek 5, Event.advance 1 0]
      = { video := { okHandle with position := 6, paused := false },
          mask := { okHandle with position := 5, paused := false },
          bothVideosReady := true, syncActive := true, tickSources := 1,
          surfacedError := none } := by
    show step (step playingState (Event.seek 5)) (Event.advance 1 0) = _
    unfold playingState
    unfold step stepE seekTo setCurrentTime advanceHandle
    dsimp only
    rw [h5]
    norm_num [okHandle]
  have hdiff : ({ okHandle with position := 6, paused := false } : MediaHandle).position
      - ({ okHandle with position := 5, paused := false } : MediaHandle).position = 1 := by
    norm_num [okHandle]
  have h6 : clampTime { okHandle with position := 5, paused := false } 6 = 6 :=
    clampTime_of_inSeekRange _ _ (by decide)
  refine ⟨rfl, rfl, rfl, ?_, ?_⟩
  · rw [hrun, stepE_tick, if_pos (by decide : (0:ℕ) < 1)]
    unfold syncVideos
    dsimp only
    rw [if_pos (by rw [hdiff, abs_one]; norm_num [SYNC_THRESHOLD])]
  · rw [hrun, stepE_tick, if_pos (by decide : (0:ℕ) < 1)]
    unfold syncVideos
    dsimp only
    rw [if_pos (by rw [hdiff, abs_one]; norm_num [SYNC_THRESHOLD])]
    dsimp only
    rw [setCurrentTime]
    dsimp only
    exact h6

/-- Claim C5 (amended): `seekTo` sets each element's position to the seek
time clamped to that element's [0, duration] (pass-through when the
duration is unknown), issuing the seek on the primary then the follower,
and does not suspend drift correction: the interval bookkeeping is left
completely untouched. -/
theorem c5_seek_clamps_without_suspending (s : SyncSystem) (t : ℚ) :
    (stepE s (Event.seek t)).1.video.position = clampTime s.video t
    ∧ (stepE s (Event.seek t)).1.mask.position = clampTime s.mask t
    ∧ (stepE s (Event.seek t)).1.syncActive = s.syncActive
    ∧ (stepE s (Event.seek t)).1.tickSources = s.tickSources
    ∧ (stepE s (Event.seek t)).2 =
        [Effect.setTime Target.primary t, Effect.setTime Target.follower t] := by
  refine ⟨?_, ?_, ?_, ?_, ?_⟩ <;> simp [stepE, seekTo, setCurrentTime]

/-- Claim C6: `pauseVideo` clears the sync interval before issuing either
pause command (visible in its effect list) and before returning; afterwards
no timer is live, and along any subsequent event sequence that contains no
play, a tick is a complete no-op (no state change, no commands) — no
correction ticks occur until the next play. -/
theorem c6_pause_stops_corrector_first (s : SyncSystem) (h : wfTimer s) :
    (pauseVideo s).2 =
        (if s.syncActive then [Effect.clearTimer] else [])
          ++ [Effect.pauseCmd Target.primary, Effect.pauseCmd Target.follower]
    ∧ (pauseVideo s).1.syncActive = false
    ∧ (pauseVideo s).1.tickSources = 0
    ∧ ∀ es : List Event, Event.play ∉ es →
        stepE (run (pauseVideo s).1 es) Event.tick = (run (pauseVideo s).1 es, []) := by
  unfold wfTimer at h
  have hts : (pauseVideo s).1.tickSources = 0 := by
    unfold pauseVideo stopSyncMonitoring
    by_cases ha : s.syncActive <;> simp [ha, h]
  refine ⟨?_, pauseVideo_syncActive s, hts, ?_⟩
  · unfold pauseVideo stopSyncMonitoring
    by_cases ha : s.syncActive <;> simp [ha]
  · intro es hnp
    exact tick_noop_of_tickSources_zero _ (run_tickSources_zero _ es hnp hts)

/-- Witness for C6 from the Playing state: after the pause, even following a
seek and a mask error, the next tick does nothing and issues nothing. -/
theorem c6_pause_stops_corrector_first_witness :
    (pauseVideo playingState).2 =
        (if playingState.syncActive then [Effect.clearTimer] else [])
          ++ [Effect.pauseCmd Target.primary, Effect.pauseCmd Target.follower]
    ∧ (pauseVideo playingState).1.syncActive = false
    ∧ (pauseVideo playingState).1.tickSources = 0
    ∧ stepE (run (pauseVideo playingState).1 [Event.seek 3, Event.maskErr "x"])
          Event.tick
        = (run (pauseVideo playingState).1 [Event.seek 3, Event.maskErr "x"], []) := by
  have h := c6_pause_stops_corrector_first playingState
    (by unfold wfTimer playingState; rfl)
  exact ⟨h.1, h.2.1, h.2.2.1, h.2.2.2 [Event.seek 3, Event.maskErr "x"] (by decide)⟩

/-- Claim C8 counterexample: with the pair already Playing at 5 s (ready, no
errors), `playVideo` is not a no-op: it resets both positions to 0 — an
additional position reset the claim rules out — and changes the state. -/
theorem c8_counterexample :
    playingState.video.paused = false
    ∧ playingState.video.position = 5
    ∧ (playVideo playingState).1.video.position = 0
    ∧ Effect.setTime Target.primary 0 ∈ (playVideo playingState).2
    ∧ (playVideo playingState).1 ≠ playingState := by
  decide

/-- Claim C8 (amended): `pauseVideo` twice equals `pauseVideo` once — the
second call changes nothing and issues only the two (idempotent) pause
commands, with no timer or seek effects; but `playVideo` while already
Playing is not idempotent: it re-resets both positions to 0 and re-issues
the position resets. -/
theorem c8_pause_idempotent_play_not (s : SyncSystem)
    (hr : s.bothVideosReady = true) (hv : s.video.errorMsg = none)
    (hm : s.mask.errorMsg = none) (_hp : s.video.paused = false) :
    (pauseVideo (pauseVideo s).1).1 = (pauseVideo s).1
    ∧ (pauseVideo (pauseVideo s).1).2 =
        [Effect.pauseCmd Target.primary, Effect.pauseCmd Target.follower]
    ∧ (playVideo s).1.video.position = 0
    ∧ (playVideo s).1.mask.position = 0
    ∧ Effect.setTime Target.primary 0 ∈ (playVideo s).2 := by
  have hpp := pauseVideo_inactive (pauseVideo s).1 (pauseVideo_syncActive s)
  have hstate : (pauseVideo (pauseVideo s).1).1 = (pauseVideo s).1 := by
    rw [hpp]
    exact SyncSystem_set_paused_self _ (pauseVideo_video_paused s)
      (pauseVideo_mask_paused s)
  refine ⟨hstate, by rw [hpp], ?_, ?_, ?_⟩ <;>
    rw [playVideo_success s hr hv hm] <;>
    simp [startSyncMonitoring_video, startSyncMonitoring_mask,
      setCurrentTime, clampTime_zero]

/-- Witness for C8 (amended) at the Playing state. -/
theorem c8_pause_idempotent_play_not_witness :
    (pauseVideo (pauseVideo playingState).1).1 = (pauseVideo playingState).1
    ∧ (pauseVideo (pauseVideo playingState).1).2 =
        [Effect.pauseCmd Target.primary, Effect.pauseCmd Target.follower]
    ∧ (playVideo playingState).1.video.position = 0
    ∧ (playVideo playingState).1.mask.position = 0
    ∧ Effect.setTime Target.primary 0 ∈ (playVideo playingState).2 :=
  c8_pause_idempotent_play_not playingState rfl rfl rfl rfl

end GpuUi
